import Mathlib

/-! Shallow embedding of the lock-free ring buffer from `src/ring_buf.hpp`,
`src/spsc.cpp` and `src/mpsc.cpp`.

Modelling conventions:
* `uint64_t` values are `Nat` with explicit `% U64` wraparound at every
  operation the C++ performs on a 64-bit word; `unsigned` loop variables in
  `align_to_no_false_sharing` stay in ranges where 32-bit wraparound cannot
  occur and are also `Nat`.
* The arrays `version_numbers[version_granularity]` and `buf[length]` become
  total functions `Nat → Nat` and `Nat → VersionedData α`; the C++ only ever
  indexes them with `x & (granularity - 1)` and `x & (length - 1)`, and the
  embedding uses exactly those index expressions (`&&&`).
* Single-threaded (uninterfered) semantics: a consumer spin loop whose exit
  condition is false on entry would spin forever because nothing else changes
  the counter, so `read` returns `Option`, with `none` for the spinning case.
* The MPSC CAS loop is embedded with its retry schedule made explicit: the
  list of stale cursor values observed by iterations whose
  `compare_exchange_weak` failed is passed as an oracle (`fails`), and the
  final, successful iteration observes `seq`.  An execution with no
  interference from other producers is the `fails = []` instance.
-/

/-- Size of the `uint64_t` value space; all cursor, version-counter and
sequence-number arithmetic in the source wraps modulo this. -/
def U64 : Nat := 2 ^ 64

/-- `uint64_t` subtraction `a - b` with wraparound, as in
`read_sequence_number - entry.sequence_number` (spsc.cpp:48, mpsc.cpp:103)
and in `fetch_sub(1)` (mpsc.cpp:74, mpsc.cpp:88). -/
def u64_sub (a b : Nat) : Nat := (a + (U64 - b % U64)) % U64

/-- The branchless staleness check of both readers:
`(uint64_t)(read_sequence_number - entry.sequence_number) >> 63`
(spsc.cpp:48, mpsc.cpp:103). -/
def success_flag (read_sequence_number sequence_number : Nat) : Nat :=
  u64_sub read_sequence_number sequence_number >>> 63

/-- One slot of the ring buffer: `versioned_DataType` of ring_buf.hpp:62-65,
a payload together with its 64-bit sequence number. -/
structure VersionedData (α : Type) where
  data : α
  sequence_number : Nat

/-- The `RingBuf` state (ring_buf.hpp:16-85).  The producer cursor is the
union `prod_u` (plain `uint64_t` for SPSC, atomic for MPSC — same single
64-bit word either way), modelled as one field. -/
structure RingBuf (α : Type) where
  write_sequence_number : Nat
  read_sequence_number : Nat
  version_numbers : Nat → Nat
  buf : Nat → VersionedData α

/-- The constructor (spsc.cpp:4-12, mpsc.cpp:4-12): zero both cursors and all
version counters, fill every slot with `sequence_number = 0`.  Payload bytes
are indeterminate after construction; `d0` stands for whatever they are. -/
def RingBuf.init {α : Type} (d0 : α) : RingBuf α where
  write_sequence_number := 0
  read_sequence_number := 0
  version_numbers := fun _ => 0
  buf := fun _ => ⟨d0, 0⟩

/-- The value captured into `volatile uint64_t write_guard` by the claim-time
`fetch_add(1, relaxed)` (spsc.cpp:25, and the first MPSC loop iteration,
mpsc.cpp:75): C++ `fetch_add` returns the counter value from *before* the
increment. -/
def write_guard_value {α : Type} (version_granularity : Nat) (s : RingBuf α) : Nat :=
  s.version_numbers (s.write_sequence_number &&& (version_granularity - 1))

namespace SPSC

/-- SPSC `RingBuf::write` (spsc.cpp:14-33): claim-time `fetch_add` (whose
returned old value is the guard), guarded copy of `{*data, cursor + 1}` into
slot `cursor & (length-1)`, cursor increment, release `fetch_add`. -/
def write {α : Type} (length version_granularity : Nat) (s : RingBuf α) (data : α) :
    RingBuf α :=
  let version_idx := s.write_sequence_number &&& (version_granularity - 1)
  let write_guard := s.version_numbers version_idx
  let vn1 := Function.update s.version_numbers version_idx
    ((s.version_numbers version_idx + 1) % U64)
  let old_wsn := s.write_sequence_number
  let new_wsn := (old_wsn + 1) % U64
  let entry : VersionedData α := ⟨data, new_wsn⟩
  let buf1 := if write_guard ≠ 0 then
      Function.update s.buf (old_wsn &&& (length - 1)) entry
    else s.buf
  let vn2 := Function.update vn1 version_idx ((vn1 version_idx + 1) % U64)
  { write_sequence_number := new_wsn
    read_sequence_number := s.read_sequence_number
    version_numbers := vn2
    buf := buf1 }

/-- SPSC `RingBuf::read` (spsc.cpp:35-52): copy the slot, spin while the
region counter is odd (`none`: in the uninterfered model an odd counter never
changes, so the do-while never exits), then the branchless staleness check;
payload is copied out and the cursor advanced only on success. -/
def read {α : Type} (length version_granularity : Nat) (s : RingBuf α) (ret_data : α) :
    Option (Bool × RingBuf α × α) :=
  let version_idx := s.read_sequence_number &&& (version_granularity - 1)
  if s.version_numbers version_idx &&& 1 ≠ 0 then none
  else
    let entry := s.buf (s.read_sequence_number &&& (length - 1))
    let success := success_flag s.read_sequence_number entry.sequence_number
    let ret1 := if success ≠ 0 then entry.data else ret_data
    some (success != 0,
      { s with read_sequence_number := (s.read_sequence_number + success) % U64 },
      ret1)

end SPSC

namespace MPSC

/-- The body of the MPSC CAS loop (mpsc.cpp:68-83) run over the list of
cursor values the iterations observe.  Arguments after the list: the version
counters, `version_number_ptr` (`none` = null) as the index of the counter
currently held, and `write_guard`.  Each element: compute the region index;
if the held pointer differs, decrement the old counter (when non-null) and
increment the new one, capturing its old value as the guard. -/
def claim_fold (version_granularity : Nat) :
    List Nat → (Nat → Nat) → Option Nat → Nat → (Nat → Nat) × Option Nat × Nat
  | [], vn, held, write_guard => (vn, held, write_guard)
  | seq :: rest, vn, held, write_guard =>
    let version_idx := seq &&& (version_granularity - 1)
    if held = some version_idx then
      claim_fold version_granularity rest vn held write_guard
    else
      let vn1 := match held with
        | none => vn
        | some h => Function.update vn h (u64_sub (vn h) 1)
      claim_fold version_granularity rest
        (Function.update vn1 version_idx ((vn1 version_idx + 1) % U64))
        (some version_idx) (vn1 version_idx)

/-- MPSC `RingBuf::write` (mpsc.cpp:14-89) with the CAS retry schedule made
explicit: `fails` lists the stale cursor values observed by iterations whose
`compare_exchange_weak` failed; `seq` is the value observed by the final,
successful iteration (CAS succeeds exactly when the observed value is the
current cursor, so the cursor becomes `seq + 1`).  After the loop: guarded
copy of `{*data, seq + 1}` into slot `seq & (length-1)`, then the release
`fetch_sub(1)` on the counter last incremented. -/
def write_gen {α : Type} (length version_granularity : Nat) (fails : List Nat) (seq : Nat)
    (s : RingBuf α) (data : α) : RingBuf α :=
  let folded := claim_fold version_granularity (fails ++ [seq]) s.version_numbers none 0
  let vn := folded.1
  let held := folded.2.1.getD 0
  let write_guard := folded.2.2
  let entry : VersionedData α := ⟨data, (seq + 1) % U64⟩
  let buf1 := if write_guard ≠ 0 then
      Function.update s.buf (seq &&& (length - 1)) entry
    else s.buf
  let vn2 := Function.update vn held (u64_sub (vn held) 1)
  { write_sequence_number := (seq + 1) % U64
    read_sequence_number := s.read_sequence_number
    version_numbers := vn2
    buf := buf1 }

/-- MPSC `RingBuf::write` without interference from other producers: the CAS
succeeds on the first iteration, observing the actual cursor. -/
def write {α : Type} (length version_granularity : Nat) (s : RingBuf α) (data : α) :
    RingBuf α :=
  write_gen length version_granularity [] s.write_sequence_number s data

/-- MPSC `RingBuf::read` (mpsc.cpp:91-106): copy the slot, spin while the
region counter is non-zero (`none` in the uninterfered model), copy the
payload to the caller unconditionally, then the branchless staleness check
and conditional cursor advance. -/
def read {α : Type} (length version_granularity : Nat) (s : RingBuf α) (ret_data : α) :
    Option (Bool × RingBuf α × α) :=
  let version_idx := s.read_sequence_number &&& (version_granularity - 1)
  if s.version_numbers version_idx ≠ 0 then none
  else
    let entry := s.buf (s.read_sequence_number &&& (length - 1))
    let ret1 := entry.data
    let success := success_flag s.read_sequence_number entry.sequence_number
    some (success != 0,
      { s with read_sequence_number := (s.read_sequence_number + success) % U64 },
      ret1)

end MPSC

/-- `#define ALIGN_NO_FALSE_SHARING (64 * 2)` (ring_buf.hpp:8). -/
def ALIGN_NO_FALSE_SHARING : Nat := 64 * 2

/-- The gcd-halving loop of `align_to_no_false_sharing` (ring_buf.hpp:52-55):
`while (sz % gcd && ALIGN_NO_FALSE_SHARING % gcd) gcd >>= 1;`.  The C++ loop
starts at 128 and can only halve, so 32 fuel steps over-cover every possible
run; the fuel is never exhausted. -/
def gcd_loop (sz : Nat) : Nat → Nat → Nat
  | 0, g => g
  | fuel + 1, g =>
    if sz % g ≠ 0 ∧ ALIGN_NO_FALSE_SHARING % g ≠ 0 then gcd_loop sz fuel (g >>> 1)
    else g

/-- The power-of-two rounding loop of `align_to_no_false_sharing`
(ring_buf.hpp:58-59): `while (final_alignment < lcm_alignment)
final_alignment <<= 1;`.  Starting from 1, 64 doublings exceed every
`unsigned` value, so the fuel is never exhausted. -/
def pow2_loop (lcm_alignment : Nat) : Nat → Nat → Nat
  | 0, f => f
  | fuel + 1, f =>
    if f < lcm_alignment then pow2_loop lcm_alignment fuel (f <<< 1)
    else f

/-- `RingBuf::align_to_no_false_sharing` (ring_buf.hpp:51-61) as a function
of `sz = sizeof(__unaligned_versioned_DataType)` (the payload record plus its
8-byte sequence number). -/
def align_to_no_false_sharing (sz : Nat) : Nat :=
  let g := gcd_loop sz 32 ALIGN_NO_FALSE_SHARING
  let lcm_alignment := (sz / g) * ALIGN_NO_FALSE_SHARING
  pow2_loop lcm_alignment 64 1

/-- All version counters hold `uint64_t` values (true in every state the C++
can represent). -/
def CountersBounded {α : Type} (s : RingBuf α) : Prop :=
  ∀ i, s.version_numbers i < U64

/-- Concrete state for the C4 witness: one completed write of payload 5 with
sequence number 1 sits in every slot, counters quiescent. -/
def c4w : RingBuf Nat where
  write_sequence_number := 1
  read_sequence_number := 0
  version_numbers := fun _ => 0
  buf := fun _ => ⟨5, 1⟩

/-- Concrete state for the C9 witness: one completed write of payload 42 with
sequence number 1, counters quiescent. -/
def c9w : RingBuf Nat where
  write_sequence_number := 1
  read_sequence_number := 0
  version_numbers := fun _ => 0
  buf := fun _ => ⟨42, 1⟩

/-- The staleness flag decides `read_cursor < sequence_number` whenever the
two `uint64_t` values are within `2 ^ 63` of each other. -/
theorem success_flag_eq (r s : Nat) (hs : s < U64)
    (h1 : s ≤ r + 2 ^ 63) (h2 : r < s + 2 ^ 63) :
    success_flag r s = if r < s then 1 else 0 := by
  unfold success_flag u64_sub U64 at *
  rw [Nat.shiftRight_eq_div_pow, Nat.mod_eq_of_lt hs]
  split <;> omega

/-- A `fetch_add(1)` followed by a `fetch_sub(1)` restores a `uint64_t`
counter. -/
theorem u64_inc_dec (v : Nat) (h : v < U64) : u64_sub ((v + 1) % U64) 1 = v := by
  unfold u64_sub U64 at *
  omega

/-- C1: on a fresh buffer the guard captured from the version-counter
increment is zero (C++ `fetch_add` returns the pre-increment value, and a
quiescent counter is 0), so the guarded copy is skipped and the slot keeps
`sequence_number = 0` — for the first SPSC write and for an uninterfered
MPSC write alike.  This evaluates the code at the failing input of the
claim. -/
theorem C1_write_guard_zero :
    write_guard_value 4 (RingBuf.init (0 : Nat)) = 0 ∧
    ((SPSC.write 4 4 (RingBuf.init (0 : Nat)) 42).buf 0).sequence_number = 0 ∧
    ((MPSC.write 8 2 (RingBuf.init (0 : Nat)) 42).buf 0).sequence_number = 0 := by
  decide

/-- C2: failing input for the round-trip law at `n = 1`, `length = 4`,
`G = 4`: after a single write of payload 42 into a fresh SPSC buffer, the
first read returns `false` (the guarded copy was skipped, so the slot still
holds sequence number 0), where the claim requires `true`. -/
theorem C2_first_read_fails :
    (SPSC.read 4 4 (SPSC.write 4 4 (RingBuf.init (0 : Nat)) 42) 0).map
      (fun p => p.1) = some false := by
  decide

/-- C3: failing input for scenario B (`length = 2`, payloads 10, 20, 30 for
`a`, `b`, `c`): the first read returns `(true, 30)` — payload `c`, not `a` —
because the writes of `a` and `b` were dropped by the zero guard and the
write of `c` stored `{30, 3}` into slot 0. -/
theorem C3_first_read_returns_c :
    (SPSC.read 2 2
        (SPSC.write 2 2 (SPSC.write 2 2 (SPSC.write 2 2 (RingBuf.init (0 : Nat)) 10) 20) 30)
        0).map (fun p => (p.1, p.2.2)) = some (true, 30) := by
  decide

/-- C5: failing input for the per-slot sequence invariant (`length = 2`,
`G = 2`): after the first write, slot 0 still holds sequence number 0 (the
claim requires `i + 1 = 1`), and after the third write it holds 3 — the
recorded values at slot 0 are `0, 3, 5, …`, skipping `1` and jumping by 3
rather than by `length`. -/
theorem C5_slot_sequence_skips :
    ((SPSC.write 2 2 (RingBuf.init (0 : Nat)) 9).buf 0).sequence_number = 0 ∧
    ((SPSC.write 2 2 (SPSC.write 2 2 (SPSC.write 2 2 (RingBuf.init (0 : Nat)) 9) 9) 9).buf
        0).sequence_number = 3 := by
  decide

/-- C8: failing input for the alignment computation: for a 16-byte versioned
record (8-byte payload plus the 8-byte sequence number) the function returns
1, not the least power of two that is a multiple of both 128 and 16 (which
is 128).  The gcd loop exits immediately (`ALIGN_NO_FALSE_SHARING % 128 = 0`),
so `lcm_alignment = (16 / 128) * 128 = 0` and the rounding loop never runs. -/
theorem C8_align_eval : align_to_no_false_sharing 16 = 1 := by
  decide

/-- C7 counterexample: at `read_cursor = 0`, `sequence_number = 2 ^ 63 + 1`
the branchless expression yields 0 although `read_cursor < sequence_number`,
so the claimed equivalence for all unsigned 64-bit values is false. -/
theorem C7_cex : success_flag 0 (2 ^ 63 + 1) = 0 ∧ 0 < 2 ^ 63 + 1 := by
  decide

/-- C7 (amended): for `uint64_t` values whose difference is within `2 ^ 63`
(`s ≤ r + 2 ^ 63` and `r < s + 2 ^ 63`), the branchless expression
`(r - s) >> 63` equals 1 exactly when `r < s` and 0 otherwise. -/
theorem C7_flag_iff (r s : Nat) (hs : s < U64)
    (h1 : s ≤ r + 2 ^ 63) (h2 : r < s + 2 ^ 63) :
    (success_flag r s = 1 ↔ r < s) ∧ (success_flag r s = 0 ↔ ¬r < s) := by
  rw [success_flag_eq r s hs h1 h2]
  constructor <;> split <;> simp_all

/-- C7 witness: the amended equivalence applied at `r = 0`, `s = 5`. -/
theorem C7_witness :
    5 < U64 ∧ 5 ≤ 0 + 2 ^ 63 ∧ 0 < 5 + 2 ^ 63 ∧
    ((success_flag 0 5 = 1 ↔ 0 < 5) ∧ (success_flag 0 5 = 0 ↔ ¬0 < 5)) :=
  ⟨by decide, by decide, by decide, C7_flag_iff 0 5 (by decide) (by decide) (by decide)⟩

/-- C10: when the SPSC read reports failure, the out-parameter is returned
exactly as it was passed in — the payload copy to the caller happens only on
success (spsc.cpp:49). -/
theorem C10_ret_unchanged {α : Type} (length version_granularity : Nat) (s : RingBuf α)
    (ret_data : α)
    (h : (SPSC.read length version_granularity s ret_data).map (fun p => p.1) = some false) :
    (SPSC.read length version_granularity s ret_data).map (fun p => p.2.2) = some ret_data := by
  unfold SPSC.read at h ⊢
  simp only [ne_eq] at h ⊢
  split at h
  case isTrue => simp at h
  case isFalse hcnd =>
    rw [if_neg hcnd]
    simp at h ⊢
    simp [h]

/-- C10 witness: the theorem applied to the first read of a fresh buffer,
which fails and hands back the caller value 9. -/
theorem C10_witness :
    (SPSC.read 4 4 (RingBuf.init (0 : Nat)) 9).map (fun p => p.1) = some false ∧
    (SPSC.read 4 4 (RingBuf.init (0 : Nat)) 9).map (fun p => p.2.2) = some 9 :=
  ⟨by decide, C10_ret_unchanged 4 4 (RingBuf.init 0) 9 (by decide)⟩

/-- C9 counterexample: from the identical quiescent state (all version
counters 0, so the hypothesis of the claim holds) with caller value 7 and slot
payload 5, the failing SPSC read leaves the out-parameter at 7 while the
failing MPSC read overwrites it with 5 — the out-parameter contents differ,
refuting the claim as stated. -/
theorem C9_cex :
    (RingBuf.init (5 : Nat)).version_numbers
        ((RingBuf.init (5 : Nat)).read_sequence_number &&& (4 - 1)) = 0 ∧
    (SPSC.read 4 4 (RingBuf.init (5 : Nat)) 7).map (fun p => (p.1, p.2.2)) =
      some (false, 7) ∧
    (MPSC.read 4 4 (RingBuf.init (5 : Nat)) 7).map (fun p => (p.1, p.2.2)) =
      some (false, 5) := by
  decide

/-- C9 (amended): from identical states whose inspected version counter is
zero, the SPSC and MPSC reads return the same success boolean and the same
final buffer state (in particular the same consumer cursor), and *when the
read succeeds* the same out-parameter contents; on failure MPSC has
overwritten the out-parameter with the slot payload while SPSC left it
unchanged. -/
theorem C9_read_equiv {α : Type} (length version_granularity : Nat) (s : RingBuf α)
    (ret_data : α)
    (h : s.version_numbers (s.read_sequence_number &&& (version_granularity - 1)) = 0) :
    (SPSC.read length version_granularity s ret_data).map (fun p => (p.1, p.2.1)) =
      (MPSC.read length version_granularity s ret_data).map (fun p => (p.1, p.2.1)) ∧
    ((SPSC.read length version_granularity s ret_data).map (fun p => p.1) = some true →
      (SPSC.read length version_granularity s ret_data).map (fun p => p.2.2) =
        (MPSC.read length version_granularity s ret_data).map (fun p => p.2.2)) := by
  unfold SPSC.read MPSC.read
  simp only [h, Nat.zero_and, ne_eq, eq_self_iff_true, not_true, if_false,
    Option.map_some', Option.some.injEq]
  refine ⟨trivial, fun hb => ?_⟩
  simp only [bne_iff_ne, ne_eq] at hb
  simp [hb]

/-- C9 witness: the amended equivalence applied to a state holding one
completed write, where both reads succeed with the same payload. -/
theorem C9_witness :
    c9w.version_numbers (c9w.read_sequence_number &&& (4 - 1)) = 0 ∧
    ((SPSC.read 4 4 c9w 0).map (fun p => (p.1, p.2.1)) =
        (MPSC.read 4 4 c9w 0).map (fun p => (p.1, p.2.1)) ∧
      ((SPSC.read 4 4 c9w 0).map (fun p => p.1) = some true →
        (SPSC.read 4 4 c9w 0).map (fun p => p.2.2) =
          (MPSC.read 4 4 c9w 0).map (fun p => p.2.2))) :=
  ⟨rfl, C9_read_equiv 4 4 c9w 0 rfl⟩

/-- C4 counterexample: a buffer state whose inspected slot carries sequence
number `2 ^ 63 + 1` while the consumer cursor is 0.  The sequence number is
strictly greater than the cursor, yet the read returns `false`, because the
branchless `>> 63` check misclassifies differences above `2 ^ 63`. -/
theorem C4_cex :
    (SPSC.read 4 4
        { write_sequence_number := 0, read_sequence_number := 0,
          version_numbers := fun _ => 0,
          buf := fun _ => (⟨0, 2 ^ 63 + 1⟩ : VersionedData Nat) } 0).map (fun p => p.1) =
      some false ∧
    (0 : Nat) < 2 ^ 63 + 1 := by
  decide

/-- C4 (amended): whenever a read call returns (SPSC: the inspected version
counter is even; MPSC: it is zero), and the sequence number of the inspected slot
is a `uint64_t` within `2 ^ 63` of the cursor (true in every state reachable
without cursor wraparound), the call returns `true` exactly when the stored
sequence number is strictly greater than the consumer cursor, advances the
cursor by exactly 1 on `true`, and leaves it unchanged on `false`. -/
theorem C4_read_iff {α : Type} (length version_granularity r : Nat) (e : VersionedData α)
    (s : RingBuf α) (ret_data : α)
    (hrdef : s.read_sequence_number = r) (hedef : s.buf (r &&& (length - 1)) = e)
    (hr : r + 1 < U64) (hs : e.sequence_number < U64)
    (h1 : e.sequence_number ≤ r + 2 ^ 63) (h2 : r < e.sequence_number + 2 ^ 63) :
    (s.version_numbers (r &&& (version_granularity - 1)) &&& 1 = 0 →
      SPSC.read length version_granularity s ret_data =
        some (decide (r < e.sequence_number),
          { s with read_sequence_number := if r < e.sequence_number then r + 1 else r },
          if r < e.sequence_number then e.data else ret_data)) ∧
    (s.version_numbers (r &&& (version_granularity - 1)) = 0 →
      MPSC.read length version_granularity s ret_data =
        some (decide (r < e.sequence_number),
          { s with read_sequence_number := if r < e.sequence_number then r + 1 else r },
          e.data)) := by
  subst hrdef
  subst hedef
  have hflag := success_flag_eq s.read_sequence_number
    (s.buf (s.read_sequence_number &&& (length - 1))).sequence_number hs h1 h2
  have hrU : s.read_sequence_number < U64 := Nat.lt_of_succ_lt hr
  constructor
  · intro hc
    unfold SPSC.read
    rw [if_neg (by simp [hc])]
    simp only [hflag]
    by_cases hlt :
        s.read_sequence_number < (s.buf (s.read_sequence_number &&& (length - 1))).sequence_number
    · simp [hlt, Nat.mod_eq_of_lt hr]
    · simp [hlt, Nat.mod_eq_of_lt hrU]
  · intro hc
    unfold MPSC.read
    rw [if_neg (by simp [hc])]
    simp only [hflag]
    by_cases hlt :
        s.read_sequence_number < (s.buf (s.read_sequence_number &&& (length - 1))).sequence_number
    · simp [hlt, Nat.mod_eq_of_lt hr]
    · simp [hlt, Nat.mod_eq_of_lt hrU]

/-- C4 witness: the amended characterization applied to `c4w` (slot sequence
number 1, cursor 0, counter 0): the read succeeds, delivers payload 5 and
advances the cursor to 1. -/
theorem C4_witness :
    SPSC.read 4 4 c4w 0 = some (true, { c4w with read_sequence_number := 1 }, 5) := by
  have h := (C4_read_iff 4 4 0 ⟨5, 1⟩ c4w 0 rfl rfl (by decide) (by decide) (by decide)
    (by decide)).1 (by decide)
  exact h

/-- Unfolding the first CAS-loop iteration: with a null held pointer the
producer increments the counter of the observed region and records it as held. -/
theorem claim_fold_start (version_granularity a : Nat) (l : List Nat) (vn : Nat → Nat)
    (g : Nat) :
    MPSC.claim_fold version_granularity (a :: l) vn none g =
      MPSC.claim_fold version_granularity l
        (Function.update vn (a &&& (version_granularity - 1))
          ((vn (a &&& (version_granularity - 1)) + 1) % U64))
        (some (a &&& (version_granularity - 1))) (vn (a &&& (version_granularity - 1))) := by
  simp [MPSC.claim_fold]

/-- Invariant of the CAS-loop iterations: starting from counters that carry
exactly one extra increment at the held region, any further schedule of
failing iterations leaves the counters with exactly one extra increment at
the finally held region (every region change decrements the old counter
before incrementing the new one). -/
theorem claim_fold_shape (version_granularity : Nat) (l : List Nat) :
    ∀ (vn : Nat → Nat) (h g : Nat), (∀ i, vn i < U64) →
      ∃ h2 g2,
        MPSC.claim_fold version_granularity l
            (Function.update vn h ((vn h + 1) % U64)) (some h) g =
          (Function.update vn h2 ((vn h2 + 1) % U64), some h2, g2) := by
  induction l with
  | nil => exact fun vn h g _ => ⟨h, g, rfl⟩
  | cons a rest ih =>
    intro vn h g hb
    by_cases heq : h = a &&& (version_granularity - 1)
    · rw [MPSC.claim_fold]
      rw [if_pos (by rw [heq])]
      exact ih vn h g hb
    · rw [MPSC.claim_fold]
      rw [if_neg (by simp [heq])]
      simp only [Function.update_same]
      rw [u64_inc_dec (vn h) (hb h), Function.update_idem, Function.update_eq_self]
      exact ih vn (a &&& (version_granularity - 1)) (vn (a &&& (version_granularity - 1))) hb

/-- C6: an MPSC write — under any CAS retry schedule, including every retry
that moves between regions — returns with every version counter restored to
its value on entry: the final release decrement lands on the counter last
incremented, and each region change decrements the previously incremented
counter before incrementing the new one. -/
theorem C6_counters_balanced {α : Type} (length version_granularity : Nat)
    (fails : List Nat) (seq : Nat) (s : RingBuf α) (data : α)
    (hb : CountersBounded s) :
    (MPSC.write_gen length version_granularity fails seq s data).version_numbers =
      s.version_numbers := by
  have hb2 : ∀ i, s.version_numbers i < U64 := hb
  unfold MPSC.write_gen
  cases hfl : fails ++ [seq] with
  | nil => simp at hfl
  | cons a l =>
    rw [claim_fold_start]
    obtain ⟨h2, g2, hfold⟩ := claim_fold_shape version_granularity l s.version_numbers
      (a &&& (version_granularity - 1)) (s.version_numbers (a &&& (version_granularity - 1))) hb2
    rw [hfold]
    simp only [Option.getD_some, Function.update_same]
    rw [u64_inc_dec (s.version_numbers h2) (hb2 h2), Function.update_idem,
      Function.update_eq_self]

/-- C6 witness: the balance theorem applied to a concrete retry schedule
(two failed iterations, one of which changes region) on a fresh buffer. -/
theorem C6_witness :
    CountersBounded (RingBuf.init (0 : Nat)) ∧
    (MPSC.write_gen 8 4 [0, 5] 3 (RingBuf.init (0 : Nat)) 42).version_numbers =
      (RingBuf.init (0 : Nat)).version_numbers :=
  ⟨fun _ => by norm_num [RingBuf.init, U64],
    C6_counters_balanced 8 4 [0, 5] 3 (RingBuf.init 0) 42
      (fun _ => by norm_num [RingBuf.init, U64])⟩
